import Mathlib

/-!
Verification development for the GratiDay data-access layer
(entities Usuario, Categoria, Frase over a relational store).

The JavaScript source is shallowly embedded: entity instances are
structures, the store is an explicit `Db` value (three tables as lists of
rows), every operation threads the `Db` and returns an `Except` for the
thrown-error paths.  JavaScript built-ins used by the source are modelled
by small executable functions (`trimLen` for String.prototype.trim().length,
`splitOnChar` for String.prototype.split, `strFalsy`/`intTruthy` for
truthiness).  JavaScript string `.length` is modelled by the character
count; the PBKDF2 derivation of the external crypto library is an explicit
function parameter.
-/

namespace GratiDay

/-! ### String literals used by the source (named so they can be reused verbatim) -/

def emptyStr : String := ""
def commaSpace : String := ", "
def strDraft : String := "draft"
def strScheduled : String := "scheduled"
def strPublished : String := "published"
def strAdmin : String := "admin"
def strUser : String := "user"

def msgUsuarioNombre : String := "El nombre debe tener al menos 2 caracteres"
def msgUsuarioCorreo : String := "El correo electrónico no es válido"
def msgUsuarioPassword : String := "La contraseña debe tener al menos 6 caracteres"
def msgUsuarioRol : String := "El rol debe ser \"admin\" o \"user\""
def msgDupCorreo : String := "El correo electrónico ya está registrado"
def msgUsuarioSinId : String := "No se puede actualizar un usuario sin ID"

def msgCategoriaNombreMin : String := "El nombre debe tener al menos 2 caracteres"
def msgCategoriaNombreMax : String := "El nombre no puede exceder 80 caracteres"
def msgCategoriaDescMax : String := "La descripción no puede exceder 255 caracteres"
def msgCategoriaDup : String := "Ya existe una categoría con ese nombre"
def msgCategoriaSinIdUpdate : String := "No se puede actualizar una categoría sin ID"
def msgCategoriaSinIdDelete : String := "No se puede eliminar una categoría sin ID"
def msgCategoriaTieneFrases : String := "No se puede eliminar la categoría porque tiene frases asociadas"

def msgFraseTexto10 : String := "El texto debe tener al menos 10 caracteres"
def msgFraseTexto1000 : String := "El texto no puede exceder 1000 caracteres"
def msgFraseAutor120 : String := "El nombre del autor no puede exceder 120 caracteres"
def msgFraseCreador : String := "Debe especificar el ID del usuario creador"
def msgFraseCategoria : String := "Debe especificar el ID de la categoría"
def msgFraseEstado : String := "El estado debe ser draft, scheduled o published"
def msgFraseProgramada : String := "Las frases programadas deben tener una fecha de publicación"
def msgFraseFechaFutura : String := "La fecha de publicación programada debe ser futura"
def msgFraseSinIdUpdate : String := "No se puede actualizar una frase sin ID"
def msgFkFrase : String := "El usuario o categoría especificados no existen"

def msgDatosInvalidos : String := "Datos inválidos: "

/-- Message of the thrown validation error: the `Datos inválidos:` template
applied to the comma-joined error list, as in the source. -/
def joinErrors (errs : List String) : String :=
  msgDatosInvalidos ++ String.intercalate commaSpace errs

/-! ### Models of the JavaScript built-ins the source relies on -/

/-- Model of String.prototype.trim: drop whitespace at both ends. -/
def trimChars (l : List Char) : List Char :=
  ((l.dropWhile Char.isWhitespace).reverse.dropWhile Char.isWhitespace).reverse

/-- Model of s.trim().length. -/
def trimLen (s : String) : Nat := (trimChars s.data).length

/-- JavaScript falsiness of a string: only the empty string is falsy. -/
def strFalsy (s : String) : Bool := decide (s.data = [])

/-- JavaScript truthiness of an optional string field (undefined and the
empty string are falsy). -/
def strTruthy : Option String → Bool
  | none => false
  | some s => !strFalsy s

/-- JavaScript truthiness of an optional number field (undefined and 0 are
falsy). -/
def intTruthy : Option Int → Bool
  | none => false
  | some n => !(n == 0)

/-- The constructors map falsy field values to null: 0 becomes null. -/
def jsOrNullInt (n : Int) : Option Int := if n == 0 then none else some n

/-- The constructors map a falsy (absent or 0) nullable column to null. -/
def jsOrNullOpt : Option Int → Option Int
  | none => none
  | some n => if n == 0 then none else some n

/-- The constructors replace a falsy (empty) string by a default. -/
def jsOrStr (v fallback : String) : String := if strFalsy v then fallback else v

/-- Model of String.prototype.split for a one-character separator:
accumulator-based splitter over the character list. -/
def splitCharAux (sep : Char) : List Char → List Char → List (List Char)
  | [], acc => [acc.reverse]
  | c :: cs, acc =>
    if c == sep then acc.reverse :: splitCharAux sep cs []
    else splitCharAux sep cs (c :: acc)

/-- Split a string on a one-character separator. -/
def splitOnChar (sep : Char) (s : String) : List String :=
  (splitCharAux sep s.data []).map String.mk

/-- Whether the first list is a leading segment of the second. -/
def startsWithChars : List Char → List Char → Bool
  | [], _ => true
  | _ :: _, [] => false
  | c :: cs, h :: hs => c == h && startsWithChars cs hs

/-- Whether the first list occurs contiguously in the second. -/
def infixChars (needle : List Char) : List Char → Bool
  | [] => startsWithChars needle []
  | h :: hs => startsWithChars needle (h :: hs) || infixChars needle hs

/-- Case-sensitive substring containment. -/
def containsSubstr (hay needle : String) : Bool :=
  infixChars needle.data hay.data

/-- Model of SQL LIKE with pattern concat of percent, needle, percent under
the store's default case-insensitive collation (patterns without LIKE
metacharacters). -/
def sqlLike (hay needle : String) : Bool :=
  containsSubstr hay.toLower needle.toLower

/-! ### Validation results -/

structure ValidationResult where
  isValid : Bool
  errors : List String
deriving DecidableEq

/-- The error list built by a validate() body: for each (condition, message)
pair, push the message when the condition holds, in order. -/
def violationMessages : List (Bool × String) → List String
  | [] => []
  | (b, m) :: rest => (if b then [m] else []) ++ violationMessages rest

/-! ### Email syntax check (model of the regular expression of the source) -/

/-- True when some element other than the last one is a dot. -/
def dotNotLast : List Char → Bool
  | [] => false
  | [_] => false
  | c :: c2 :: cs => c == '.' || dotNotLast (c2 :: cs)

/-- True when the string has a dot that is neither its first nor its last
character. -/
def hasInnerDot (s : String) : Bool :=
  match s.data with
  | [] => false
  | _ :: rest => dotNotLast rest

/-- Model of the email regular expression: one at-sign, no whitespace, a
nonempty local part, and a domain with an inner dot splitting it into two
nonempty pieces. -/
def isValidEmail (s : String) : Bool :=
  match splitOnChar '@' s with
  | [lp, dom] =>
    !lp.isEmpty && !(lp.data.any Char.isWhitespace)
      && !(dom.data.any Char.isWhitespace) && hasInnerDot dom
  | _ => false

/-! ### Store rows and database state -/

structure UsuarioRow where
  id_user : Int
  nombre : String
  correo_electronico : String
  password_hash : String
  fecha_creacion : Int
  rol : String
deriving DecidableEq

structure CategoriaRow where
  id_category : Int
  nombre : String
  descripcion : String
deriving DecidableEq

structure FraseRow where
  id_quote : Int
  texto : String
  autor : String
  fecha_creacion : Int
  scheduled_at : Option Int
  status : String
  creado_por : Option Int
  categoria_id : Option Int
deriving DecidableEq

structure Db where
  usuarios : List UsuarioRow
  categorias : List CategoriaRow
  frases : List FraseRow
deriving DecidableEq

/-- Model of the autoincrement id generator of each table: one more than the
largest id in use. -/
def nextId (ids : List Int) : Int := ids.foldl max 0 + 1

def nextUsuarioId (db : Db) : Int := nextId (db.usuarios.map UsuarioRow.id_user)
def nextCategoriaId (db : Db) : Int := nextId (db.categorias.map CategoriaRow.id_category)
def nextFraseId (db : Db) : Int := nextId (db.frases.map FraseRow.id_quote)

/-! ### Usuario -/

structure Usuario where
  id_user : Option Int := none
  nombre : String := emptyStr
  correo_electronico : String := emptyStr
  password_hash : String := emptyStr
  fecha_creacion : Option Int := none
  rol : String := strUser
deriving DecidableEq

/-- Constructor semantics of the source: each falsy field value is replaced
by the default. -/
def Usuario.ofRow (r : UsuarioRow) : Usuario :=
  { id_user := jsOrNullInt r.id_user
    nombre := r.nombre
    correo_electronico := r.correo_electronico
    password_hash := r.password_hash
    fecha_creacion := jsOrNullInt r.fecha_creacion
    rol := jsOrStr r.rol strUser }

/-- The (condition, message) pairs checked by Usuario.validate, in source
order. -/
def usuarioErrTable (u : Usuario) : List (Bool × String) :=
  [ (strFalsy u.nombre || decide (trimLen u.nombre < 2), msgUsuarioNombre),
    (strFalsy u.correo_electronico || !isValidEmail u.correo_electronico, msgUsuarioCorreo),
    (strFalsy u.password_hash || decide (u.password_hash.length < 6), msgUsuarioPassword),
    (!(u.rol == strAdmin || u.rol == strUser), msgUsuarioRol) ]

def Usuario.validate (u : Usuario) : ValidationResult :=
  let errors := violationMessages (usuarioErrTable u)
  { isValid := errors.isEmpty, errors := errors }

/-- Usuario.hashPassword: the random salt and the PBKDF2 derivation of the
external crypto library are explicit parameters; the result is the
salt-colon-hash string of the source. -/
def Usuario.hashPassword (pbkdf2 : String → String → String)
    (salt password : String) : String :=
  salt ++ ":" ++ pbkdf2 password salt

/-- Usuario.verifyPassword: destructure the stored value on colons into salt
and original hash, re-derive and compare. -/
def Usuario.verifyPassword (pbkdf2 : String → String → String)
    (password stored : String) : Bool :=
  let parts := splitOnChar ':' stored
  parts.getD 1 emptyStr == pbkdf2 password (parts.getD 0 emptyStr)

/-- Usuario.create: validate the instance (including its password_hash field
as it stands), then hash the plaintext, then insert; the unique-email
conflict of the store is mapped to the duplicate message. -/
def Usuario.create (pbkdf2 : String → String → String) (salt : String)
    (now : Int) (u : Usuario) (password : String) (db : Db) :
    Except String Usuario × Db :=
  let vr := u.validate
  if vr.isValid then
    let u2 := { u with password_hash := Usuario.hashPassword pbkdf2 salt password }
    if db.usuarios.any (fun r => r.correo_electronico == u2.correo_electronico) then
      (Except.error msgDupCorreo, db)
    else
      let newId := nextUsuarioId db
      let row : UsuarioRow :=
        { id_user := newId
          nombre := u2.nombre
          correo_electronico := u2.correo_electronico
          password_hash := u2.password_hash
          fecha_creacion := now
          rol := u2.rol }
      (Except.ok { u2 with id_user := some newId, fecha_creacion := some now },
        { db with usuarios := db.usuarios ++ [row] })
  else (Except.error (joinErrors vr.errors), db)

/-- Usuario.findById: first matching row or null. -/
def Usuario.findById (db : Db) (i : Int) : Option Usuario :=
  match db.usuarios.filter (fun r => r.id_user == i) with
  | [] => none
  | r :: _ => some (Usuario.ofRow r)

/-- Usuario.findByEmail: first matching row or null. -/
def Usuario.findByEmail (db : Db) (email : String) : Option Usuario :=
  match db.usuarios.filter (fun r => r.correo_electronico == email) with
  | [] => none
  | r :: _ => some (Usuario.ofRow r)

/-- Usuario.authenticate: null when the email is unknown or the password
does not verify. -/
def Usuario.authenticate (pbkdf2 : String → String → String) (db : Db)
    (email password : String) : Option Usuario :=
  match Usuario.findByEmail db email with
  | none => none
  | some u =>
    if Usuario.verifyPassword pbkdf2 password u.password_hash then some u else none

/-- Update payload for Usuario: each defined key overwrites the field;
id_user is skipped by the source. -/
structure UsuarioPatch where
  nombre : Option String := none
  correo_electronico : Option String := none
  password_hash : Option String := none
  fecha_creacion : Option (Option Int) := none
  rol : Option String := none
deriving DecidableEq

/-- The in-place merge of the payload into the instance. -/
def Usuario.applyPatch (u : Usuario) (p : UsuarioPatch) : Usuario :=
  { u with
    nombre := p.nombre.getD u.nombre
    correo_electronico := p.correo_electronico.getD u.correo_electronico
    password_hash := p.password_hash.getD u.password_hash
    fecha_creacion := p.fecha_creacion.getD u.fecha_creacion
    rol := p.rol.getD u.rol }

/-- Usuario.update: reject without id, merge the payload into the instance,
re-validate the merged instance, then persist name, email and role only.
Returns (thrown result, instance state after the call, store state). -/
def Usuario.update (u : Usuario) (p : UsuarioPatch) (db : Db) :
    Except String Unit × Usuario × Db :=
  match u.id_user with
  | none => (Except.error msgUsuarioSinId, u, db)
  | some uid =>
    let u2 := Usuario.applyPatch u p
    let vr := u2.validate
    if vr.isValid then
      if db.usuarios.any (fun r =>
          r.correo_electronico == u2.correo_electronico && !(r.id_user == uid)) then
        (Except.error msgDupCorreo, u2, db)
      else
        (Except.ok (), u2,
          { db with usuarios := db.usuarios.map (fun r =>
              if r.id_user == uid then
                { r with
                  nombre := u2.nombre
                  correo_electronico := u2.correo_electronico
                  rol := u2.rol }
              else r) })
    else (Except.error (joinErrors vr.errors), u2, db)

/-! ### Categoria -/

structure Categoria where
  id_category : Option Int := none
  nombre : String := emptyStr
  descripcion : String := emptyStr
deriving DecidableEq

def Categoria.ofRow (r : CategoriaRow) : Categoria :=
  { id_category := jsOrNullInt r.id_category
    nombre := r.nombre
    descripcion := r.descripcion }

/-- The (condition, message) pairs checked by Categoria.validate, in source
order. -/
def categoriaErrTable (c : Categoria) : List (Bool × String) :=
  [ (strFalsy c.nombre || decide (trimLen c.nombre < 2), msgCategoriaNombreMin),
    (!strFalsy c.nombre && decide (c.nombre.length > 80), msgCategoriaNombreMax),
    (!strFalsy c.descripcion && decide (c.descripcion.length > 255), msgCategoriaDescMax) ]

def Categoria.validate (c : Categoria) : ValidationResult :=
  let errors := violationMessages (categoriaErrTable c)
  { isValid := errors.isEmpty, errors := errors }

/-- Categoria.create: validate, then insert; the unique-name conflict of the
store is mapped to the duplicate message. -/
def Categoria.create (c : Categoria) (db : Db) : Except String Categoria × Db :=
  let vr := c.validate
  if vr.isValid then
    if db.categorias.any (fun r => r.nombre == c.nombre) then
      (Except.error msgCategoriaDup, db)
    else
      let newId := nextCategoriaId db
      let row : CategoriaRow :=
        { id_category := newId, nombre := c.nombre, descripcion := c.descripcion }
      (Except.ok { c with id_category := some newId },
        { db with categorias := db.categorias ++ [row] })
  else (Except.error (joinErrors vr.errors), db)

structure CategoriaPatch where
  nombre : Option String := none
  descripcion : Option String := none
deriving DecidableEq

def Categoria.applyPatch (c : Categoria) (p : CategoriaPatch) : Categoria :=
  { c with
    nombre := p.nombre.getD c.nombre
    descripcion := p.descripcion.getD c.descripcion }

/-- Categoria.update: reject without id, merge, re-validate the merged
instance, then persist name and description.
Returns (thrown result, instance state after the call, store state). -/
def Categoria.update (c : Categoria) (p : CategoriaPatch) (db : Db) :
    Except String Unit × Categoria × Db :=
  match c.id_category with
  | none => (Except.error msgCategoriaSinIdUpdate, c, db)
  | some cid =>
    let c2 := Categoria.applyPatch c p
    let vr := c2.validate
    if vr.isValid then
      if db.categorias.any (fun r =>
          r.nombre == c2.nombre && !(r.id_category == cid)) then
        (Except.error msgCategoriaDup, c2, db)
      else
        (Except.ok (), c2,
          { db with categorias := db.categorias.map (fun r =>
              if r.id_category == cid then
                { r with nombre := c2.nombre, descripcion := c2.descripcion }
              else r) })
    else (Except.error (joinErrors vr.errors), c2, db)

/-- Row deletion of the categoria table: the remaining rows and the number
of affected rows. -/
def Categoria.deleteRows (db : Db) (cid : Int) : Db × Nat :=
  let remaining := db.categorias.filter (fun r => !(r.id_category == cid))
  ({ db with categorias := remaining }, db.categorias.length - remaining.length)

/-- Categoria.delete: reject without id; without forceDelete, count the
quotes referencing this category and fail when some exist; otherwise delete
and report whether a row was removed. -/
def Categoria.delete (c : Categoria) (forceDelete : Bool) (db : Db) :
    Except String Bool × Db :=
  match c.id_category with
  | none => (Except.error msgCategoriaSinIdDelete, db)
  | some cid =>
    if forceDelete = false ∧
        0 < (db.frases.filter (fun r => r.categoria_id == some cid)).length then
      (Except.error msgCategoriaTieneFrases, db)
    else
      let out := Categoria.deleteRows db cid
      (Except.ok (decide (0 < out.2)), out.1)

/-- SELECT COUNT of the quotes referencing this category. -/
def Categoria.getFrasesCount (cid : Int) (db : Db) : Nat :=
  (db.frases.filter (fun r => r.categoria_id == some cid)).length

/-! ### Frase -/

structure Frase where
  id_quote : Option Int := none
  texto : String := emptyStr
  autor : String := emptyStr
  fecha_creacion : Option Int := none
  scheduled_at : Option Int := none
  status : String := strDraft
  creado_por : Option Int := none
  categoria_id : Option Int := none
  creado_por_nombre : String := emptyStr
  categoria_nombre : String := emptyStr
deriving DecidableEq

/-- Constructor semantics of the source on a joined row. -/
def Frase.ofJoined (r : FraseRow) (un cn : String) : Frase :=
  { id_quote := jsOrNullInt r.id_quote
    texto := r.texto
    autor := r.autor
    fecha_creacion := jsOrNullInt r.fecha_creacion
    scheduled_at := r.scheduled_at
    status := jsOrStr r.status strDraft
    creado_por := jsOrNullOpt r.creado_por
    categoria_id := jsOrNullOpt r.categoria_id
    creado_por_nombre := un
    categoria_nombre := cn }

/-- The (condition, message) pairs checked by Frase.validate, in source
order.  The validation clock (new Date() of the source) is the explicit
parameter now. -/
def fraseErrTable (now : Int) (f : Frase) : List (Bool × String) :=
  [ (strFalsy f.texto || decide (trimLen f.texto < 10), msgFraseTexto10),
    (!strFalsy f.texto && decide (f.texto.length > 1000), msgFraseTexto1000),
    (!strFalsy f.autor && decide (f.autor.length > 120), msgFraseAutor120),
    ((match f.creado_por with
      | none => true
      | some c => decide (c ≤ 0)), msgFraseCreador),
    ((match f.categoria_id with
      | none => true
      | some c => decide (c ≤ 0)), msgFraseCategoria),
    (!(f.status == strDraft || f.status == strScheduled || f.status == strPublished),
      msgFraseEstado),
    (f.status == strScheduled && f.scheduled_at.isNone, msgFraseProgramada),
    ((match f.scheduled_at with
      | none => false
      | some t => decide (t ≤ now)), msgFraseFechaFutura) ]

def Frase.validate (now : Int) (f : Frase) : ValidationResult :=
  let errors := violationMessages (fraseErrTable now f)
  { isValid := errors.isEmpty, errors := errors }

/-- The foreign-key check the store performs when a quote row is written
with this categoria_id. -/
def fkCategoriaOk (db : Db) : Option Int → Bool
  | none => false
  | some cid => db.categorias.any (fun c => c.id_category == cid)

/-- The foreign-key check the store performs when a quote row is written
with this creado_por. -/
def fkUsuarioOk (db : Db) : Option Int → Bool
  | none => false
  | some uid => db.usuarios.any (fun u => u.id_user == uid)

/-- Frase.create: validate, then insert (the store checks both foreign keys;
its referential-integrity conflict is mapped to the reference message). -/
def Frase.create (now : Int) (f : Frase) (db : Db) : Except String Frase × Db :=
  let vr := Frase.validate now f
  if vr.isValid then
    if fkUsuarioOk db f.creado_por && fkCategoriaOk db f.categoria_id then
      let newId := nextFraseId db
      let row : FraseRow :=
        { id_quote := newId
          texto := f.texto
          autor := f.autor
          fecha_creacion := now
          scheduled_at := f.scheduled_at
          status := f.status
          creado_por := f.creado_por
          categoria_id := f.categoria_id }
      (Except.ok { f with id_quote := some newId, fecha_creacion := some now },
        { db with frases := db.frases ++ [row] })
    else (Except.error msgFkFrase, db)
  else (Except.error (joinErrors vr.errors), db)

/-! ### Frase search and count -/

/-- Optional-field filter object of findAll and count. -/
structure FraseFilters where
  status : Option String := none
  categoria_id : Option Int := none
  creado_por : Option Int := none
  search : Option String := none
deriving DecidableEq

/-- The WHERE clause built by findAll, as a predicate on the quote row
(the conditions are added only for truthy filter fields, combined with
AND). -/
def findAllWhere (fl : FraseFilters) (r : FraseRow) : Bool :=
  (if strTruthy fl.status then r.status == fl.status.getD emptyStr else true) &&
  (if intTruthy fl.categoria_id then r.categoria_id == some (fl.categoria_id.getD 0) else true) &&
  (if intTruthy fl.creado_por then r.creado_por == some (fl.creado_por.getD 0) else true) &&
  (if strTruthy fl.search then
    (sqlLike r.texto (fl.search.getD emptyStr) || sqlLike r.autor (fl.search.getD emptyStr))
  else true)

/-- The WHERE clause built by count, transcribed separately from its own
body (it repeats the same four conditions without the table alias). -/
def countWhere (fl : FraseFilters) (r : FraseRow) : Bool :=
  (if strTruthy fl.status then r.status == fl.status.getD emptyStr else true) &&
  (if intTruthy fl.categoria_id then r.categoria_id == some (fl.categoria_id.getD 0) else true) &&
  (if intTruthy fl.creado_por then r.creado_por == some (fl.creado_por.getD 0) else true) &&
  (if strTruthy fl.search then
    (sqlLike r.texto (fl.search.getD emptyStr) || sqlLike r.autor (fl.search.getD emptyStr))
  else true)

/-- A row of the three-table join of findAll. -/
structure JoinedRow where
  frase : FraseRow
  creado_por_nombre : String
  categoria_nombre : String
deriving DecidableEq

/-- The inner join of one quote row against the usuario and categoria
tables. -/
def joinedFor (db : Db) (r : FraseRow) : List JoinedRow :=
  (db.usuarios.filter (fun u => r.creado_por == some u.id_user)).flatMap
    (fun u => (db.categorias.filter (fun c => r.categoria_id == some c.id_category)).map
      (fun c => { frase := r, creado_por_nombre := u.nombre, categoria_nombre := c.nombre }))

/-- FROM frase JOIN usuario JOIN categoria. -/
def joinAll (db : Db) : List JoinedRow := db.frases.flatMap (joinedFor db)

/-- Descending insertion by an integer key (models ORDER BY key DESC; only
its length matters to the claims about result counts). -/
def insertDescBy {α : Type} (key : α → Int) (x : α) : List α → List α
  | [] => [x]
  | y :: ys => if key y ≤ key x then x :: y :: ys else y :: insertDescBy key x ys

def sortDescBy {α : Type} (key : α → Int) : List α → List α
  | [] => []
  | x :: xs => insertDescBy key x (sortDescBy key xs)

/-- Frase.findAll: join, filter, order by creation time descending, then
OFFSET and LIMIT, and map rows into instances. -/
def Frase.findAll (fl : FraseFilters) (limit offset : Nat) (db : Db) : List Frase :=
  let rows :=
    ((sortDescBy (fun j => j.frase.fecha_creacion)
        ((joinAll db).filter (fun j => findAllWhere fl j.frase))).drop offset).take limit
  rows.map (fun j => Frase.ofJoined j.frase j.creado_por_nombre j.categoria_nombre)

/-- Frase.count: SELECT COUNT over the frase table alone with the same
optional filters. -/
def Frase.count (fl : FraseFilters) (db : Db) : Nat :=
  (db.frases.filter (countWhere fl)).length

/-! ### Frase update and lifecycle -/

/-- Update payload for Frase: each defined key overwrites the field;
id_quote is skipped by the source. -/
structure FrasePatch where
  texto : Option String := none
  autor : Option String := none
  scheduled_at : Option (Option Int) := none
  status : Option String := none
  creado_por : Option (Option Int) := none
  categoria_id : Option (Option Int) := none
deriving DecidableEq

/-- The in-place merge of the payload into the instance. -/
def Frase.applyPatch (f : Frase) (p : FrasePatch) : Frase :=
  { f with
    texto := p.texto.getD f.texto
    autor := p.autor.getD f.autor
    scheduled_at := p.scheduled_at.getD f.scheduled_at
    status := p.status.getD f.status
    creado_por := p.creado_por.getD f.creado_por
    categoria_id := p.categoria_id.getD f.categoria_id }

/-- Frase.update: reject without id, merge the payload into the instance,
re-validate the merged instance, then run the UPDATE statement, which sets
only texto, autor, scheduled_at, status and categoria_id on the matching
row (the store checks the categoria foreign key for the written value; the
referential conflict is mapped to the reference message).
Returns (thrown result, instance state after the call, store state). -/
def Frase.update (f : Frase) (p : FrasePatch) (now : Int) (db : Db) :
    Except String Unit × Frase × Db :=
  match f.id_quote with
  | none => (Except.error msgFraseSinIdUpdate, f, db)
  | some qid =>
    let f2 := Frase.applyPatch f p
    let vr := Frase.validate now f2
    if vr.isValid then
      if fkCategoriaOk db f2.categoria_id then
        (Except.ok (), f2,
          { db with frases := db.frases.map (fun r =>
              if r.id_quote == qid then
                { r with
                  texto := f2.texto
                  autor := f2.autor
                  scheduled_at := f2.scheduled_at
                  status := f2.status
                  categoria_id := f2.categoria_id }
              else r) })
      else (Except.error msgFkFrase, f2, db)
    else (Except.error (joinErrors vr.errors), f2, db)

/-- Frase.publish: update with status published and a cleared scheduled
timestamp. -/
def Frase.publish (f : Frase) (now : Int) (db : Db) :
    Except String Unit × Frase × Db :=
  Frase.update f { status := some strPublished, scheduled_at := some none } now db

/-- Frase.schedule: update with status scheduled and the given timestamp. -/
def Frase.schedule (f : Frase) (scheduledDate : Int) (now : Int) (db : Db) :
    Except String Unit × Frase × Db :=
  Frase.update f { status := some strScheduled, scheduled_at := some (some scheduledDate) } now db

/-- Frase.draft: update with status draft and a cleared scheduled
timestamp. -/
def Frase.draft (f : Frase) (now : Int) (db : Db) :
    Except String Unit × Frase × Db :=
  Frase.update f { status := some strDraft, scheduled_at := some none } now db

/-! ### Spec-side rule predicates (stated from the specification text, to be
compared with the validation code) -/

/-- The quote field rules exactly as the specification words them: raw text
length in the interval from 10 to 1000, author length at most 120, creator
id positive, category id positive, status in the three-element enum,
scheduled status implies a non-null scheduled timestamp, and a non-null
scheduled timestamp strictly in the future. -/
def specQuoteOk (now : Int) (f : Frase) : Bool :=
  decide (10 ≤ f.texto.length) && decide (f.texto.length ≤ 1000) &&
  decide (f.autor.length ≤ 120) &&
  (match f.creado_por with
   | none => false
   | some c => decide (0 < c)) &&
  (match f.categoria_id with
   | none => false
   | some c => decide (0 < c)) &&
  (f.status == strDraft || f.status == strScheduled || f.status == strPublished) &&
  (!(f.status == strScheduled) || !f.scheduled_at.isNone) &&
  (match f.scheduled_at with
   | none => true
   | some t => decide (now < t))

/-- The amended quote rule table: identical to the specification's list of
rules except that the lower text bound is read on the trimmed text, paired
with the message that identifies each rule. -/
def fraseRuleTable (now : Int) (f : Frase) : List (Bool × String) :=
  [ (decide (10 ≤ trimLen f.texto), msgFraseTexto10),
    (decide (f.texto.length ≤ 1000), msgFraseTexto1000),
    (decide (f.autor.length ≤ 120), msgFraseAutor120),
    ((match f.creado_por with
      | none => false
      | some c => decide (0 < c)), msgFraseCreador),
    ((match f.categoria_id with
      | none => false
      | some c => decide (0 < c)), msgFraseCategoria),
    (f.status == strDraft || f.status == strScheduled || f.status == strPublished,
      msgFraseEstado),
    (!(f.status == strScheduled) || !f.scheduled_at.isNone, msgFraseProgramada),
    ((match f.scheduled_at with
      | none => true
      | some t => decide (now < t)), msgFraseFechaFutura) ]

/-- The checks of Frase.validate that do not concern status or scheduling
(text, author, creator id and category id): the fields publish() leaves
untouched. -/
def Frase.baseFieldsOk (f : Frase) : Bool :=
  !(strFalsy f.texto || decide (trimLen f.texto < 10)) &&
  !(!strFalsy f.texto && decide (f.texto.length > 1000)) &&
  !(!strFalsy f.autor && decide (f.autor.length > 120)) &&
  !(match f.creado_por with
    | none => true
    | some c => decide (c ≤ 0)) &&
  !(match f.categoria_id with
    | none => true
    | some c => decide (c ≤ 0))

/-- The quote row columns the UPDATE statement never names: identifier,
creation timestamp and owning user. -/
def fraseFrameFields (r : FraseRow) : Int × Int × Option Int :=
  (r.id_quote, r.fecha_creacion, r.creado_por)

/-! ### Concrete inputs for witnesses and counterexamples -/

/-- Ten spaces: raw length 10, trimmed length 0. -/
def tenSpaces : String := "          "

/-- A quote whose raw text length is 10 but whose trimmed text is empty; all
other specification rules hold. -/
def cexFrase : Frase :=
  { texto := tenSpaces, creado_por := some 1, categoria_id := some 1 }

def txtValid : String := "Cada día es un regalo"
def txtShort : String := "corto"

/-- A stand-in for the PBKDF2 derivation in closed evaluations. -/
def pb0 : String → String → String := fun password salt => password ++ salt

def salt0 : String := "salt"
def nAna : String := "Ana"
def eAna : String := "ana@x.com"
def pwSecreta : String := "secret1"
def pwCorta : String := "abc"
def hashPrevio : String := "hashprevio"

/-- A user exactly as the interactive console builds one before calling
create: no password_hash yet. -/
def consoleUsuario : Usuario :=
  { nombre := nAna, correo_electronico := eAna, rol := strUser }

/-- The same user but with a long password_hash already present on the
instance. -/
def preHashedUsuario : Usuario :=
  { nombre := nAna, correo_electronico := eAna, password_hash := hashPrevio, rol := strUser }

def dbEmpty : Db := { usuarios := [], categorias := [], frases := [] }

def nCat : String := "Gratitud"
def cexCategoria : Categoria := { id_category := some 1, nombre := nCat }

def mkFraseRow (i : Int) (cid : Int) : FraseRow :=
  { id_quote := i
    texto := txtValid
    autor := emptyStr
    fecha_creacion := i
    scheduled_at := none
    status := strDraft
    creado_por := some 1
    categoria_id := some cid }

def rowAna : UsuarioRow :=
  { id_user := 1
    nombre := nAna
    correo_electronico := eAna
    password_hash := hashPrevio
    fecha_creacion := 0
    rol := strUser }

def rowCat : CategoriaRow :=
  { id_category := 1, nombre := nCat, descripcion := emptyStr }

/-- A store with one user, one category and three quotes in that
category. -/
def cexDb : Db :=
  { usuarios := [rowAna]
    categorias := [rowCat]
    frases := [mkFraseRow 1 1, mkFraseRow 2 1, mkFraseRow 3 1] }

def numeral3 : String := "3"

/-- A quote instance loaded from the first row of cexDb. -/
def fraseUno : Frase :=
  { id_quote := some 1, texto := txtValid, creado_por := some 1, categoria_id := some 1 }

def badNombre : String := "A"

/-- A user instance with an identifier, as loaded from cexDb. -/
def usuarioUno : Usuario :=
  { id_user := some 1
    nombre := nAna
    correo_electronico := eAna
    password_hash := hashPrevio
    rol := strUser }

/-- An update payload that makes the merged user invalid (one-letter
name). -/
def upBad : UsuarioPatch := { nombre := some badNombre }

/-- An update payload that makes the merged category invalid. -/
def cpBad : CategoriaPatch := { nombre := some badNombre }

/-- An update payload that makes the merged quote invalid (short text). -/
def fpBad : FrasePatch := { texto := some txtShort }

/-- An update payload carrying a new owning-user value. -/
def fpCreado : FrasePatch := { creado_por := some (some 5) }

/-- An invalid category (one-letter name). -/
def categoriaBad : Categoria := { nombre := badNombre }

/-! ## Theorems -/

/-! ### Generic facts about validation error lists -/

lemma violationMessages_isEmpty (l : List (Bool × String)) :
    (violationMessages l).isEmpty = l.all (fun p => !p.1) := by
  induction l with
  | nil => rfl
  | cons hd tl ih =>
    obtain ⟨b, m⟩ := hd
    cases b <;> simp [violationMessages, ih]

lemma mem_violationMessages {l : List (Bool × String)} {b : Bool} {m : String}
    (h : (b, m) ∈ l) (hb : b = true) : m ∈ violationMessages l := by
  induction l with
  | nil => simp at h
  | cons hd tl ih =>
    obtain ⟨b2, m2⟩ := hd
    rcases List.mem_cons.mp h with h1 | h2
    · injection h1 with hb2 hm2
      subst hb2
      subst hm2
      subst hb
      simp [violationMessages]
    · cases b2 <;> simp [violationMessages, ih h2]

lemma negTable_filter (l : List (Bool × String)) :
    ((l.map (fun p => (!p.1, p.2))).filter (fun p => !p.1)).map Prod.snd
      = violationMessages l := by
  induction l with
  | nil => rfl
  | cons hd tl ih =>
    obtain ⟨b, m⟩ := hd
    cases b <;> simp [violationMessages, ih]

lemma negTable_all (l : List (Bool × String)) :
    (l.map (fun p => (!p.1, p.2))).all Prod.fst = (violationMessages l).isEmpty := by
  induction l with
  | nil => rfl
  | cons hd tl ih =>
    obtain ⟨b, m⟩ := hd
    cases b <;> simp [violationMessages, ih]

/-! ### The amended quote rules negate the validation conditions one by one -/

lemma neg_rule_texto10 (f : Frase) :
    decide (10 ≤ trimLen f.texto) = !(strFalsy f.texto || decide (trimLen f.texto < 10)) := by
  by_cases he : f.texto.data = []
  · have h0 : trimLen f.texto = 0 := by simp [trimLen, he, trimChars]
    simp [strFalsy, he, h0]
  · by_cases h : 10 ≤ trimLen f.texto
    · simp [strFalsy, he, h, Nat.not_lt.mpr h]
    · simp [strFalsy, he, h, Nat.not_le.mp h]

lemma neg_rule_texto1000 (f : Frase) :
    decide (f.texto.length ≤ 1000)
      = !(!strFalsy f.texto && decide (f.texto.length > 1000)) := by
  by_cases he : f.texto.data = []
  · have hlen : f.texto.length = 0 := by simp [String.length, he]
    simp [strFalsy, he, hlen]
  · by_cases h : f.texto.length ≤ 1000
    · simp [strFalsy, he, h, Nat.not_lt.mpr h]
    · simp [strFalsy, he, h, Nat.not_le.mp h]

lemma neg_rule_autor120 (f : Frase) :
    decide (f.autor.length ≤ 120)
      = !(!strFalsy f.autor && decide (f.autor.length > 120)) := by
  by_cases he : f.autor.data = []
  · have hlen : f.autor.length = 0 := by simp [String.length, he]
    simp [strFalsy, he, hlen]
  · by_cases h : f.autor.length ≤ 120
    · simp [strFalsy, he, h, Nat.not_lt.mpr h]
    · simp [strFalsy, he, h, Nat.not_le.mp h]

lemma neg_rule_id (o : Option Int) :
    (match o with
     | none => false
     | some c => decide (0 < c))
      = !(match o with
          | none => true
          | some c => decide (c ≤ 0)) := by
  cases o with
  | none => rfl
  | some c =>
    by_cases h : (0 : Int) < c
    · simp [h, Int.not_le.mpr h]
    · simp [h, Int.not_lt.mp h]

lemma neg_rule_futura (now : Int) (o : Option Int) :
    (match o with
     | none => true
     | some t => decide (now < t))
      = !(match o with
          | none => false
          | some t => decide (t ≤ now)) := by
  cases o with
  | none => rfl
  | some t =>
    by_cases h : now < t
    · simp [h, Int.not_le.mpr h]
    · simp [h, Int.not_lt.mp h]

/-- The amended rule table is the pointwise negation of the condition table
of Frase.validate. -/
lemma fraseRuleTable_eq_neg (now : Int) (f : Frase) :
    fraseRuleTable now f = (fraseErrTable now f).map (fun p => (!p.1, p.2)) := by
  simp only [fraseRuleTable, fraseErrTable, List.map_cons, List.map_nil,
    List.cons.injEq, Prod.mk.injEq, and_true]
  exact ⟨neg_rule_texto10 f, neg_rule_texto1000 f, neg_rule_autor120 f,
    neg_rule_id f.creado_por, neg_rule_id f.categoria_id,
    (Bool.not_not _).symm, (Bool.not_and _ _).symm,
    neg_rule_futura now f.scheduled_at⟩

/-! ### C1 -/

/-- C1, counterexample: the quote whose text is ten spaces satisfies every
field rule exactly as the specification words them (raw text length 10),
yet validate() reports it invalid, because the code checks the trimmed
text length. -/
theorem frase_validate_spec_rules_counterexample :
    specQuoteOk 0 cexFrase = true ∧ (Frase.validate 0 cexFrase).isValid = false :=
  ⟨rfl, rfl⟩

/-- C1, amended: with the lower text bound read on the trimmed text (and the
remaining rules as the specification words them), validate() returns
exactly the messages of the violated rules, in rule order, and isValid is
the conjunction of all rules.  In particular an assignment satisfying every
amended rule yields isValid true with an empty error list, and an
assignment violating exactly one rule yields isValid false with exactly the
message identifying that rule. -/
theorem frase_validate_matches_amended_rules (now : Int) (f : Frase) :
    (Frase.validate now f).errors
      = ((fraseRuleTable now f).filter (fun p => !p.1)).map Prod.snd ∧
    (Frase.validate now f).isValid = (fraseRuleTable now f).all Prod.fst := by
  constructor
  · rw [fraseRuleTable_eq_neg, negTable_filter]
    rfl
  · rw [fraseRuleTable_eq_neg, negTable_all]
    rfl

/-! ### C2 -/

/-- The instance merged by publish(): status published, scheduled timestamp
cleared, everything else untouched. -/
lemma publish_applyPatch (f : Frase) :
    Frase.applyPatch f { status := some strPublished, scheduled_at := some none }
      = { f with status := strPublished, scheduled_at := none } := rfl

/-- After the publish() merge, validation succeeds exactly when the
non-lifecycle field checks pass. -/
lemma publish_merged_valid (now : Int) (f : Frase)
    (hbase : Frase.baseFieldsOk f = true) :
    (Frase.validate now
      (Frase.applyPatch f { status := some strPublished, scheduled_at := some none })).isValid
      = true := by
  show (violationMessages (fraseErrTable now _)).isEmpty = true
  rw [publish_applyPatch, violationMessages_isEmpty]
  simp [Frase.baseFieldsOk] at hbase
  simp [fraseErrTable, strPublished, strDraft, strScheduled]
  tauto

/-- C2: for a quote with an identifier whose remaining fields pass
validation (and whose category reference exists in the store), publish()
succeeds, sets status published and clears the scheduled timestamp on the
in-memory instance, and does the same on every stored row bearing that
identifier. -/
theorem frase_publish_publishes (f : Frase) (now : Int) (db : Db) (qid : Int)
    (hid : f.id_quote = some qid)
    (hbase : Frase.baseFieldsOk f = true)
    (hfk : fkCategoriaOk db f.categoria_id = true) :
    (Frase.publish f now db).1 = Except.ok () ∧
    (Frase.publish f now db).2.1.status = strPublished ∧
    (Frase.publish f now db).2.1.scheduled_at = none ∧
    ∀ r ∈ (Frase.publish f now db).2.2.frases, r.id_quote = qid →
      r.status = strPublished ∧ r.scheduled_at = none := by
  have hval := publish_merged_valid now f hbase
  have hfk2 : fkCategoriaOk db
      (Frase.applyPatch f { status := some strPublished, scheduled_at := some none }).categoria_id
        = true := hfk
  simp only [Frase.publish, Frase.update, hid, hval, hfk2, if_true]
  refine ⟨by trivial, by trivial, by trivial, ?_⟩
  intro r hr hrid
  obtain ⟨r0, hr0, rfl⟩ := List.mem_map.mp hr
  by_cases hq : r0.id_quote == qid
  · simp [hq, publish_applyPatch]
  · exfalso
    simp only [hq, if_false] at hrid
    exact absurd (by simpa using hrid) (by simpa using hq)

/-- C2 witness: publishing the first quote of the example store succeeds and
updates both the instance and the stored row. -/
theorem frase_publish_publishes_witness :
    (Frase.publish fraseUno 0 cexDb).1 = Except.ok () ∧
    (Frase.publish fraseUno 0 cexDb).2.1.status = strPublished ∧
    (Frase.publish fraseUno 0 cexDb).2.1.scheduled_at = none ∧
    ∀ r ∈ (Frase.publish fraseUno 0 cexDb).2.2.frases, r.id_quote = 1 →
      r.status = strPublished ∧ r.scheduled_at = none :=
  frase_publish_publishes fraseUno 0 cexDb 1 rfl (by decide) (by decide)

/-! ### C4 -/

/-- C4: Usuario.create validates the instance's password_hash field as it
stands before hashing, not the plaintext argument.  With the user built the
way the interactive console builds it (no password_hash yet), create fails
with the credential-length message even though the plaintext has 7
characters; conversely, with a long password_hash already on the instance,
a 3-character plaintext passes validation and is hashed and stored. -/
theorem usuario_create_checks_field_not_plaintext :
    6 ≤ pwSecreta.length ∧
    (Usuario.create pb0 salt0 0 consoleUsuario pwSecreta dbEmpty).1
      = Except.error (joinErrors [msgUsuarioPassword]) ∧
    pwCorta.length < 6 ∧
    (Usuario.create pb0 salt0 0 preHashedUsuario pwCorta dbEmpty).1
      = Except.ok
          { preHashedUsuario with
            password_hash := Usuario.hashPassword pb0 salt0 pwCorta
            id_user := some 1
            fecha_creacion := some (0 : Int) } :=
  ⟨by decide, rfl, by decide, rfl⟩

/-! ### C5 -/

/-- C5, counterexample: in a store where three quotes reference category 1,
deleting that category without forceDelete fails and removes nothing — but
the error message is the fixed dependency string, which does not name the
blocking count (the digit 3 does not occur in it). -/
theorem categoria_delete_message_counterexample :
    (cexDb.frases.filter (fun r => r.categoria_id == some 1)).length = 3 ∧
    Categoria.delete cexCategoria false cexDb = (Except.error msgCategoriaTieneFrases, cexDb) ∧
    containsSubstr msgCategoriaTieneFrases numeral3 = false :=
  ⟨rfl, rfl, rfl⟩

/-- C5, amended: for a category with an identifier, when quotes reference it
and forceDelete is false, delete fails with the fixed dependency message
(which does not include the numeric count) and removes nothing; with
forceDelete true it proceeds with the row deletion regardless of the
count. -/
theorem categoria_delete_guard (c : Categoria) (cid : Int) (db : Db)
    (hid : c.id_category = some cid) :
    (0 < (db.frases.filter (fun r => r.categoria_id == some cid)).length →
      Categoria.delete c false db = (Except.error msgCategoriaTieneFrases, db)) ∧
    Categoria.delete c true db
      = (Except.ok (decide (0 < (Categoria.deleteRows db cid).2)),
          (Categoria.deleteRows db cid).1) := by
  constructor
  · intro hcnt
    simp [Categoria.delete, hid, hcnt]
  · simp [Categoria.delete, hid]

/-- C5 witness: on the example store, the guarded delete fails with the
dependency message, and the forced delete removes the category row. -/
theorem categoria_delete_guard_witness :
    (0 < (cexDb.frases.filter (fun r => r.categoria_id == some 1)).length →
      Categoria.delete cexCategoria false cexDb
        = (Except.error msgCategoriaTieneFrases, cexDb)) ∧
    Categoria.delete cexCategoria true cexDb
      = (Except.ok (decide (0 < (Categoria.deleteRows cexDb 1).2)),
          (Categoria.deleteRows cexDb 1).1) :=
  categoria_delete_guard cexCategoria 1 cexDb rfl

/-! ### C6 -/

lemma splitCharAux_no_sep (sep : Char) :
    ∀ (l acc : List Char), sep ∉ l → splitCharAux sep l acc = [acc.reverse ++ l] := by
  intro l
  induction l with
  | nil => intro acc h; simp [splitCharAux]
  | cons c cs ih =>
    intro acc h
    rw [List.mem_cons, not_or] at h
    obtain ⟨h1, h2⟩ := h
    have hc : (c == sep) = false := beq_eq_false_iff_ne.mpr (Ne.symm h1)
    simp [splitCharAux, hc, ih (c :: acc) h2]

lemma splitCharAux_sep_split (sep : Char) :
    ∀ (l1 : List Char) (l2 acc : List Char), sep ∉ l1 →
      splitCharAux sep (l1 ++ sep :: l2) acc
        = (acc.reverse ++ l1) :: splitCharAux sep l2 [] := by
  intro l1
  induction l1 with
  | nil => intro l2 acc h; simp [splitCharAux]
  | cons c cs ih =>
    intro l2 acc h
    rw [List.mem_cons, not_or] at h
    obtain ⟨h1, h2⟩ := h
    have hc : (c == sep) = false := beq_eq_false_iff_ne.mpr (Ne.symm h1)
    simp [splitCharAux, hc, ih l2 (c :: acc) h2]

/-- The character list underlying a salt-colon-hash value. -/
lemma hashPassword_data (pbkdf2 : String → String → String)
    (salt password : String) :
    (Usuario.hashPassword pbkdf2 salt password).data
      = salt.data ++ ':' :: (pbkdf2 password salt).data := by
  show (salt.data ++ [':']) ++ (pbkdf2 password salt).data = _
  rw [List.append_assoc]
  rfl

/-- Splitting a salt-colon-hash value recovers the salt and the hash when
neither contains a colon. -/
lemma splitOnChar_hashPassword (pbkdf2 : String → String → String)
    (salt password : String)
    (hs : ':' ∉ salt.data) (hh : ':' ∉ (pbkdf2 password salt).data) :
    splitOnChar ':' (Usuario.hashPassword pbkdf2 salt password)
      = [salt, pbkdf2 password salt] := by
  show ((splitCharAux ':' (Usuario.hashPassword pbkdf2 salt password).data []).map String.mk) = _
  rw [hashPassword_data, splitCharAux_sep_split _ _ _ _ hs, splitCharAux_no_sep _ _ _ hh]
  simp

lemma append_sep_inj {c : Char} :
    ∀ {l1 l2 t1 t2 : List Char}, c ∉ l1 → c ∉ l2 →
      l1 ++ c :: t1 = l2 ++ c :: t2 → l1 = l2 := by
  intro l1
  induction l1 with
  | nil =>
    intro l2 t1 t2 h1 h2 h
    cases l2 with
    | nil => rfl
    | cons b bs =>
      simp only [List.nil_append, List.cons_append] at h
      injection h with hb _
      exact absurd (show c ∈ b :: bs by
        rw [hb]
        exact List.mem_cons_self b bs) h2
  | cons a as ih =>
    intro l2 t1 t2 h1 h2 h
    cases l2 with
    | nil =>
      simp only [List.cons_append, List.nil_append] at h
      injection h with hb _
      exact absurd (show c ∈ a :: as by
        rw [← hb]
        exact List.mem_cons_self a as) h1
    | cons b bs =>
      simp only [List.cons_append] at h
      injection h with hab ht
      have h1' : c ∉ as := fun hm => h1 (List.mem_cons_of_mem _ hm)
      have h2' : c ∉ bs := fun hm => h2 (List.mem_cons_of_mem _ hm)
      rw [hab, ih h1' h2' ht]

/-- C6: the salt-colon-hash composition round-trips.  The PBKDF2 derivation
of the external crypto library is an explicit parameter; the hypotheses
record its contract (hex output and the two salts contain no colon, the two
distinct plaintexts do not collide under this salt, distinct calls draw
distinct salts). -/
theorem password_hash_roundtrip (pbkdf2 : String → String → String)
    (p w salt1 salt2 : String)
    (h1 : ':' ∉ salt1.data) (h2 : ':' ∉ (pbkdf2 p salt1).data)
    (h3 : pbkdf2 w salt1 ≠ pbkdf2 p salt1)
    (h4 : ':' ∉ salt2.data) (h5 : salt1 ≠ salt2) :
    Usuario.verifyPassword pbkdf2 p (Usuario.hashPassword pbkdf2 salt1 p) = true ∧
    Usuario.verifyPassword pbkdf2 w (Usuario.hashPassword pbkdf2 salt1 p) = false ∧
    Usuario.hashPassword pbkdf2 salt1 p ≠ Usuario.hashPassword pbkdf2 salt2 p := by
  have hsplit := splitOnChar_hashPassword pbkdf2 salt1 p h1 h2
  refine ⟨?_, ?_, ?_⟩
  · simp [Usuario.verifyPassword, hsplit]
  · simp [Usuario.verifyPassword, hsplit]
    exact fun heq => absurd heq.symm h3
  · intro heq
    have hd0 : (Usuario.hashPassword pbkdf2 salt1 p).data
        = (Usuario.hashPassword pbkdf2 salt2 p).data := congrArg String.data heq
    rw [hashPassword_data, hashPassword_data] at hd0
    have hsalts : salt1.data = salt2.data := append_sep_inj h1 h4 hd0
    exact h5 (by
      cases salt1
      cases salt2
      exact congrArg String.mk hsalts)

/-- C6 witness: a concrete derivation function and salts discharging the
contract hypotheses. -/
theorem password_hash_roundtrip_witness :
    Usuario.verifyPassword pb0 pwCorta (Usuario.hashPassword pb0 salt0 pwCorta) = true ∧
    Usuario.verifyPassword pb0 pwSecreta (Usuario.hashPassword pb0 salt0 pwCorta) = false ∧
    Usuario.hashPassword pb0 salt0 pwCorta ≠ Usuario.hashPassword pb0 nAna pwCorta :=
  password_hash_roundtrip pb0 pwCorta pwSecreta salt0 nAna
    (by decide) (by decide) (by decide) (by decide) (by decide)

/-! ### C8 -/

/-- C8: lookups that find nothing return null rather than raising: findById
and findByEmail return null when no row matches, and authenticate returns
null both when the email is unknown and when the password does not
verify. -/
theorem lookups_return_null (pbkdf2 : String → String → String) (db : Db)
    (i : Int) (email password : String) :
    (db.usuarios.filter (fun r => r.id_user == i) = [] →
      Usuario.findById db i = none) ∧
    (db.usuarios.filter (fun r => r.correo_electronico == email) = [] →
      Usuario.findByEmail db email = none) ∧
    (Usuario.findByEmail db email = none →
      Usuario.authenticate pbkdf2 db email password = none) ∧
    (∀ u, Usuario.findByEmail db email = some u →
      Usuario.verifyPassword pbkdf2 password u.password_hash = false →
      Usuario.authenticate pbkdf2 db email password = none) := by
  refine ⟨?_, ?_, ?_, ?_⟩
  · intro h
    simp [Usuario.findById, h]
  · intro h
    simp [Usuario.findByEmail, h]
  · intro h
    simp [Usuario.authenticate, h]
  · intro u hu hv
    simp [Usuario.authenticate, hu, hv]

/-- C8 witness: the empty store and a store whose only user has a
non-matching password both yield null. -/
theorem lookups_return_null_witness :
    Usuario.findById dbEmpty 7 = none ∧
    Usuario.findByEmail dbEmpty eAna = none ∧
    Usuario.authenticate pb0 dbEmpty eAna pwSecreta = none ∧
    Usuario.authenticate pb0 cexDb eAna pwSecreta = none := by
  refine ⟨?_, ?_, ?_, ?_⟩
  · exact (lookups_return_null pb0 dbEmpty 7 eAna pwSecreta).1 (by decide)
  · exact (lookups_return_null pb0 dbEmpty 7 eAna pwSecreta).2.1 (by decide)
  · exact (lookups_return_null pb0 dbEmpty 7 eAna pwSecreta).2.2.1 (by decide)
  · exact (lookups_return_null pb0 cexDb 7 eAna pwSecreta).2.2.2
      (Usuario.ofRow rowAna) (by decide) (by decide)

/-! ### Shared facts about the three update operations on an invalid merge -/

/-- Usuario.update on a merged instance that fails validation: the error
carries the joined message list, the instance keeps the merged values, the
store is untouched. -/
lemma usuario_update_invalid (u : Usuario) (p : UsuarioPatch) (db : Db)
    (uid : Int) (hid : u.id_user = some uid)
    (hval : (Usuario.applyPatch u p).validate.isValid = false) :
    Usuario.update u p db
      = (Except.error (joinErrors (Usuario.applyPatch u p).validate.errors),
          Usuario.applyPatch u p, db) := by
  simp [Usuario.update, hid, hval]

/-- Categoria.update on a merged instance that fails validation. -/
lemma categoria_update_invalid (c : Categoria) (p : CategoriaPatch) (db : Db)
    (cid : Int) (hid : c.id_category = some cid)
    (hval : (Categoria.applyPatch c p).validate.isValid = false) :
    Categoria.update c p db
      = (Except.error (joinErrors (Categoria.applyPatch c p).validate.errors),
          Categoria.applyPatch c p, db) := by
  simp [Categoria.update, hid, hval]

/-- Frase.update on a merged instance that fails validation. -/
lemma frase_update_invalid (f : Frase) (p : FrasePatch) (now : Int) (db : Db)
    (qid : Int) (hid : f.id_quote = some qid)
    (hval : (Frase.validate now (Frase.applyPatch f p)).isValid = false) :
    Frase.update f p now db
      = (Except.error (joinErrors (Frase.validate now (Frase.applyPatch f p)).errors),
          Frase.applyPatch f p, db) := by
  simp [Frase.update, hid, hval]

/-! ### C7 -/

/-- C7: on every entity, a create or update whose field values violate
validation rules throws before any store statement (the returned store
state is the input store), with a message built from the full joined error
list; and the validation error list contains the message of every violated
rule, not just the first. -/
theorem validation_aborts_and_concatenates
    (pbkdf2 : String → String → String) (salt : String) (now : Int)
    (u : Usuario) (password : String) (up : UsuarioPatch)
    (c : Categoria) (cp : CategoriaPatch)
    (f : Frase) (fp : FrasePatch) (db : Db) :
    (u.validate.isValid = false →
      Usuario.create pbkdf2 salt now u password db
        = (Except.error (joinErrors u.validate.errors), db)) ∧
    (c.validate.isValid = false →
      Categoria.create c db = (Except.error (joinErrors c.validate.errors), db)) ∧
    ((Frase.validate now f).isValid = false →
      Frase.create now f db
        = (Except.error (joinErrors (Frase.validate now f).errors), db)) ∧
    (∀ uid, u.id_user = some uid →
      (Usuario.applyPatch u up).validate.isValid = false →
      Usuario.update u up db
        = (Except.error (joinErrors (Usuario.applyPatch u up).validate.errors),
            Usuario.applyPatch u up, db)) ∧
    (∀ cid, c.id_category = some cid →
      (Categoria.applyPatch c cp).validate.isValid = false →
      Categoria.update c cp db
        = (Except.error (joinErrors (Categoria.applyPatch c cp).validate.errors),
            Categoria.applyPatch c cp, db)) ∧
    (∀ qid, f.id_quote = some qid →
      (Frase.validate now (Frase.applyPatch f fp)).isValid = false →
      Frase.update f fp now db
        = (Except.error (joinErrors (Frase.validate now (Frase.applyPatch f fp)).errors),
            Frase.applyPatch f fp, db)) ∧
    (∀ b m, (b, m) ∈ usuarioErrTable u → b = true → m ∈ u.validate.errors) ∧
    (∀ b m, (b, m) ∈ categoriaErrTable c → b = true → m ∈ c.validate.errors) ∧
    (∀ b m, (b, m) ∈ fraseErrTable now f → b = true →
      m ∈ (Frase.validate now f).errors) := by
  refine ⟨?_, ?_, ?_, ?_, ?_, ?_, ?_, ?_, ?_⟩
  · intro h
    simp [Usuario.create, h]
  · intro h
    simp [Categoria.create, h]
  · intro h
    simp [Frase.create, h]
  · intro uid hid hval
    exact usuario_update_invalid u up db uid hid hval
  · intro cid hid hval
    exact categoria_update_invalid c cp db cid hid hval
  · intro qid hid hval
    exact frase_update_invalid f fp now db qid hid hval
  · intro b m hm hb
    exact mem_violationMessages hm hb
  · intro b m hm hb
    exact mem_violationMessages hm hb
  · intro b m hm hb
    exact mem_violationMessages hm hb

/-- C7 witness: the console user (empty password_hash) fails create with the
joined message and an untouched empty store; a quote update that merges a
short text fails the same way; the user violating several rules carries
every violated message in its error list. -/
theorem validation_aborts_and_concatenates_witness :
    Usuario.create pb0 salt0 0 consoleUsuario pwSecreta dbEmpty
      = (Except.error (joinErrors consoleUsuario.validate.errors), dbEmpty) ∧
    Categoria.create categoriaBad dbEmpty
      = (Except.error (joinErrors categoriaBad.validate.errors), dbEmpty) ∧
    Frase.update fraseUno fpBad 0 cexDb
      = (Except.error
          (joinErrors (Frase.validate 0 (Frase.applyPatch fraseUno fpBad)).errors),
          Frase.applyPatch fraseUno fpBad, cexDb) ∧
    msgUsuarioPassword ∈ consoleUsuario.validate.errors := by
  have h := validation_aborts_and_concatenates pb0 salt0 0 consoleUsuario pwSecreta upBad
    categoriaBad cpBad fraseUno fpBad dbEmpty
  have h2 := validation_aborts_and_concatenates pb0 salt0 0 consoleUsuario pwSecreta upBad
    categoriaBad cpBad fraseUno fpBad cexDb
  refine ⟨h.1 (by decide), h.2.1 (by decide), ?_, ?_⟩
  · exact h2.2.2.2.2.2.1 1 rfl (by decide)
  · exact h.2.2.2.2.2.2.1 true msgUsuarioPassword (by decide) rfl

/-! ### C9 -/

/-- C9: Frase.update never changes the stored identifier, creation timestamp
or owning-user column of any quote row, whatever the payload; when the
instance has an identifier, the merged in-memory instance does take the
payload's creado_por value, and the merge participates in re-validation (a
merged instance failing validation makes the call throw). -/
theorem frase_update_preserves_creado_por
    (f : Frase) (p : FrasePatch) (now : Int) (db : Db) :
    ((Frase.update f p now db).2.2.frases.map fraseFrameFields
      = db.frases.map fraseFrameFields) ∧
    (∀ qid, f.id_quote = some qid →
      (Frase.update f p now db).2.1.creado_por = p.creado_por.getD f.creado_por) ∧
    (∀ qid, f.id_quote = some qid →
      (Frase.validate now (Frase.applyPatch f p)).isValid = false →
      (Frase.update f p now db).1
        = Except.error (joinErrors (Frase.validate now (Frase.applyPatch f p)).errors)) := by
  refine ⟨?_, ?_, ?_⟩
  · unfold Frase.update
    cases hq : f.id_quote with
    | none => simp
    | some qid =>
      by_cases hv : (Frase.validate now (Frase.applyPatch f p)).isValid
      · by_cases hfk : fkCategoriaOk db (Frase.applyPatch f p).categoria_id
        · simp only [hv, hfk, if_true, List.map_map]
          refine List.map_congr_left ?_
          intro r _
          by_cases hr : r.id_quote = qid <;> simp [fraseFrameFields, hr]
        · simp [hv, hfk]
      · simp [hv]
  · intro qid hid
    have hself : (Frase.update f p now db).2.1 = Frase.applyPatch f p := by
      simp only [Frase.update, hid]
      by_cases hv : (Frase.validate now (Frase.applyPatch f p)).isValid
      · by_cases hfk : fkCategoriaOk db (Frase.applyPatch f p).categoria_id
        · simp [hv, hfk]
        · simp [hv, hfk]
      · simp [hv]
    rw [hself]
    rfl
  · intro qid hid hval
    rw [frase_update_invalid f p now db qid hid hval]

/-- C9 witness: updating the first quote with a payload that changes the
owning user succeeds, mutates the in-memory field, and leaves every stored
creado_por column unchanged. -/
theorem frase_update_preserves_creado_por_witness :
    ((Frase.update fraseUno fpCreado 0 cexDb).2.2.frases.map fraseFrameFields
      = cexDb.frases.map fraseFrameFields) ∧
    (Frase.update fraseUno fpCreado 0 cexDb).2.1.creado_por = some 5 :=
  ⟨(frase_update_preserves_creado_por fraseUno fpCreado 0 cexDb).1,
   (frase_update_preserves_creado_por fraseUno fpCreado 0 cexDb).2.1 1 rfl⟩

/-! ### C10 -/

/-- C10: on all three entities, update merges the payload into the in-memory
instance before validating; when validation of the merged result fails, the
stored rows are untouched while the instance keeps the rejected merged
values, so instance and store can disagree after the error. -/
theorem update_merges_before_validating
    (u : Usuario) (up : UsuarioPatch) (c : Categoria) (cp : CategoriaPatch)
    (f : Frase) (fp : FrasePatch) (now : Int) (db : Db) :
    (∀ uid, u.id_user = some uid →
      (Usuario.applyPatch u up).validate.isValid = false →
      (Usuario.update u up db).1
          = Except.error (joinErrors (Usuario.applyPatch u up).validate.errors) ∧
        (Usuario.update u up db).2.1 = Usuario.applyPatch u up ∧
        (Usuario.update u up db).2.2 = db) ∧
    (∀ cid, c.id_category = some cid →
      (Categoria.applyPatch c cp).validate.isValid = false →
      (Categoria.update c cp db).1
          = Except.error (joinErrors (Categoria.applyPatch c cp).validate.errors) ∧
        (Categoria.update c cp db).2.1 = Categoria.applyPatch c cp ∧
        (Categoria.update c cp db).2.2 = db) ∧
    (∀ qid, f.id_quote = some qid →
      (Frase.validate now (Frase.applyPatch f fp)).isValid = false →
      (Frase.update f fp now db).1
          = Except.error (joinErrors (Frase.validate now (Frase.applyPatch f fp)).errors) ∧
        (Frase.update f fp now db).2.1 = Frase.applyPatch f fp ∧
        (Frase.update f fp now db).2.2 = db) := by
  refine ⟨?_, ?_, ?_⟩
  · intro uid hid hval
    rw [usuario_update_invalid u up db uid hid hval]
    exact ⟨rfl, rfl, rfl⟩
  · intro cid hid hval
    rw [categoria_update_invalid c cp db cid hid hval]
    exact ⟨rfl, rfl, rfl⟩
  · intro qid hid hval
    rw [frase_update_invalid f fp now db qid hid hval]
    exact ⟨rfl, rfl, rfl⟩

/-- C10 witness: merging a one-letter name into the stored user fails
validation, leaves the store untouched, and leaves the instance holding the
rejected name, which differs from the stored row. -/
theorem update_merges_before_validating_witness :
    (Usuario.update usuarioUno upBad cexDb).2.1 = Usuario.applyPatch usuarioUno upBad ∧
    (Usuario.update usuarioUno upBad cexDb).2.2 = cexDb ∧
    (Usuario.update usuarioUno upBad cexDb).2.1.nombre = badNombre ∧
    (cexDb.usuarios.map UsuarioRow.nombre) = [nAna] :=
  ⟨((update_merges_before_validating usuarioUno upBad cexCategoria cpBad fraseUno fpBad
      0 cexDb).1 1 rfl (by decide)).2.1,
   ((update_merges_before_validating usuarioUno upBad cexCategoria cpBad fraseUno fpBad
      0 cexDb).1 1 rfl (by decide)).2.2,
   by decide, by decide⟩

/-! ### C3 -/

/-- The two WHERE clauses transcribe the same four conditions. -/
lemma countWhere_eq_findAllWhere (fl : FraseFilters) (r : FraseRow) :
    countWhere fl r = findAllWhere fl r := rfl

lemma length_insertDescBy {α : Type} (key : α → Int) (x : α) :
    ∀ l : List α, (insertDescBy key x l).length = l.length + 1 := by
  intro l
  induction l with
  | nil => rfl
  | cons y ys ih =>
    by_cases h : key y ≤ key x <;> simp [insertDescBy, h, ih]

lemma length_sortDescBy {α : Type} (key : α → Int) :
    ∀ l : List α, (sortDescBy key l).length = l.length := by
  intro l
  induction l with
  | nil => rfl
  | cons x xs ih => simp [sortDescBy, length_insertDescBy, ih]

/-- Under the store's contract (the referenced user and category ids exist
and are primary keys, so each matches exactly one row), the join block of a
quote row is a singleton carrying that row. -/
lemma joinedFor_singleton (db : Db) (r : FraseRow)
    (h1 : (db.usuarios.filter (fun u => r.creado_por == some u.id_user)).length = 1)
    (h2 : (db.categorias.filter (fun c => r.categoria_id == some c.id_category)).length = 1) :
    ∃ j, joinedFor db r = [j] ∧ j.frase = r := by
  obtain ⟨u, hu⟩ := List.length_eq_one.mp h1
  obtain ⟨c, hc⟩ := List.length_eq_one.mp h2
  refine ⟨{ frase := r, creado_por_nombre := u.nombre, categoria_nombre := c.nombre }, ?_, rfl⟩
  unfold joinedFor
  rw [hu, hc]
  rfl

/-- The join keeps exactly one row per quote row, and the findAll filter on
the joined rows agrees with the count filter on the underlying quote
rows. -/
lemma joined_filter_count (db : Db) (fl : FraseFilters) :
    ∀ frs : List FraseRow,
      (∀ r ∈ frs,
        (db.usuarios.filter (fun u => r.creado_por == some u.id_user)).length = 1 ∧
        (db.categorias.filter (fun c => r.categoria_id == some c.id_category)).length = 1) →
      ((frs.flatMap (joinedFor db)).filter (fun j => findAllWhere fl j.frase)).length
        = (frs.filter (countWhere fl)).length := by
  intro frs
  induction frs with
  | nil => intro _; rfl
  | cons r rs ih =>
    intro h
    have hr := h r (List.mem_cons_self r rs)
    have hrest := ih (fun r2 hr2 => h r2 (List.mem_cons_of_mem _ hr2))
    obtain ⟨j, hj, hjf⟩ := joinedFor_singleton db r hr.1 hr.2
    have hpj : findAllWhere fl j.frase = countWhere fl r := by
      rw [hjf, countWhere_eq_findAllWhere]
    rw [List.flatMap_cons, List.filter_append, List.length_append, hj, List.filter_cons,
      List.filter_cons]
    by_cases hc : countWhere fl r = true
    · simp [hpj, hc, hrest]
      omega
    · simp [hpj, hc, hrest]

/-- C3: under the schema contract — creado_por and categoria_id of every
quote row reference existing primary-key rows, so each matches exactly one
user and one category — count(filters) equals the length of
findAll(filters) with an unconstraining limit and offset 0, for every
filter combination. -/
theorem frase_count_eq_findAll_length (fl : FraseFilters) (db : Db) (L : Nat)
    (hL : db.frases.length ≤ L)
    (hjoin : ∀ r ∈ db.frases,
      (db.usuarios.filter (fun u => r.creado_por == some u.id_user)).length = 1 ∧
      (db.categorias.filter (fun c => r.categoria_id == some c.id_category)).length = 1) :
    Frase.count fl db = (Frase.findAll fl L 0 db).length := by
  unfold Frase.findAll Frase.count joinAll
  rw [List.length_map, List.drop_zero, List.length_take, length_sortDescBy,
    joined_filter_count db fl db.frases hjoin]
  have hle : (db.frases.filter (countWhere fl)).length ≤ L :=
    le_trans (List.length_filter_le _ _) hL
  rw [Nat.min_eq_right hle]

/-- C3 witness: on the example store with three draft quotes, count and
findAll agree under the status filter. -/
theorem frase_count_eq_findAll_length_witness :
    Frase.count { status := some strDraft } cexDb
      = (Frase.findAll { status := some strDraft } 3 0 cexDb).length :=
  frase_count_eq_findAll_length { status := some strDraft } cexDb 3
    (by decide) (by decide)

end GratiDay
